import Mathlib

/-!
Verification development for the recipe-browsing UI of this repository.

The repository contains two variants of the same application:

* `src/unnamed/part_000` — the server-paginated variant: the fetch sends
  `limit`/`skip`/`sortBy`/`order` query parameters (and a `q` parameter when a
  search text is set) and stores the returned page plus a derived total page
  count.  It also has the search box, the sort selects and the detail overlay.
  Embedded below in namespace `ServerApp`.
* `src/API-AppReceitas/src/App.tsx` — the client-paginated variant: one fetch
  with `limit=0` at mount, local slicing of the full result set.
  Embedded below in namespace `ClientApp`.

State is embedded as an explicit record per variant; each React `useState`
setter becomes a field update, each event handler a function on the state, and
the `useEffect` fetch becomes explicit start/resolve functions.  Page numbers
and counts are JavaScript numbers that only ever hold nonnegative integers in
this program, so they are modelled as `Nat`; the `Math.max`/`Math.min` clamps
coincide with the `Nat` versions on every reachable value.
-/

namespace AppReceitas

/-- Recipe record as consumed from the external API (interface `Recipe`). -/
structure Recipe where
  id : Int
  name : String
  image : String
  mealType : List String
  prepTimeMinutes : Int
  cookTimeMinutes : Int
  servings : Int
  caloriesPerServing : Int
  rating : Float
  difficulty : String
  ingredients : List String
  instructions : List String

/-- Shape of a resolved HTTP response as both variants consume it: the status
code plus the parsed JSON body fields `recipes` and `total`. -/
structure HttpResponse where
  status : Nat
  recipes : List Recipe
  total : Nat

/-- Models `response.ok` of the fetch API: the status is in the range 200–299. -/
def responseOk (r : HttpResponse) : Bool :=
  200 ≤ r.status && r.status ≤ 299

/-- Models `Math.ceil(n / d)` for nonnegative integers `n` and positive `d`. -/
def mathCeilDiv (n d : Nat) : Nat :=
  (n + d - 1) / d

/-- Page size constant `RECIPES_PER_PAGE = 6`, identical in both variants. -/
def RECIPES_PER_PAGE : Nat := 6

/-- Handler of the "Anterior" button, identical in both variants:
`setCurrentPage(p => Math.max(p - 1, 1))`. -/
def prevPage (p : Nat) : Nat :=
  max (p - 1) 1

/-- Handler of the "Próxima" button, identical in both variants:
`setCurrentPage(p => Math.min(p + 1, totalPages))`. -/
def nextPage (p totalPages : Nat) : Nat :=
  min (p + 1) totalPages

namespace ServerApp

/-- The `useState` cells of the `App` component of `src/unnamed/part_000`. -/
structure AppState where
  recipes : List Recipe
  loading : Bool
  error : Option String
  currentPage : Nat
  totalPages : Nat
  searchQuery : String
  sortBy : String
  sortOrder : String
  selectedRecipe : Option Recipe

/-- Initial values of the `useState` cells (part_000 lines 87–95). -/
def initialState : AppState :=
  { recipes := []
    loading := true
    error := none
    currentPage := 1
    totalPages := 0
    searchQuery := ""
    sortBy := "name"
    sortOrder := "asc"
    selectedRecipe := none }

/-- Start of the `fetchRecipes` try-block (part_000 lines 102–103):
`setError(null); setLoading(false);`.  Note the source really calls
`setLoading(false)` here, not `setLoading(true)`. -/
def fetchStart (s : AppState) : AppState :=
  { s with error := none, loading := false }

/-- Request URL built by `fetchRecipes` (part_000 lines 105–113): the search
endpoint when `searchQuery` is truthy (non-empty), the listing endpoint
otherwise, each with the template-literal parameters. -/
def buildUrl (searchQuery : String) (currentPage : Nat) (sortBy sortOrder : String) : String :=
  let skip := (currentPage - 1) * RECIPES_PER_PAGE
  if searchQuery ≠ "" then
    "https://dummyjson.com/recipes/search?q=" ++ searchQuery ++ "&limit=" ++
      toString RECIPES_PER_PAGE ++ "&skip=" ++ toString skip ++ "&sortBy=" ++ sortBy ++
      "&order=" ++ sortOrder
  else
    "https://dummyjson.com/recipes?limit=" ++ toString RECIPES_PER_PAGE ++ "&skip=" ++
      toString skip ++ "&sortBy=" ++ sortBy ++ "&order=" ++ sortOrder

/-- Resolution of the fetch (part_000 lines 115–133).  A non-ok response throws
`HTTP error! status: ${response.status}`, which the catch-block records while
clearing `recipes` and `totalPages`; an ok response replaces `recipes` and sets
`totalPages = Math.ceil(data.total / RECIPES_PER_PAGE)`.  The finally-block
runs `setLoading(false)` on both paths. -/
def fetchResolve (s : AppState) (r : HttpResponse) : AppState :=
  if responseOk r then
    { s with recipes := r.recipes
             totalPages := mathCeilDiv r.total RECIPES_PER_PAGE
             loading := false }
  else
    { s with error := some ("HTTP error! status: " ++ toString r.status)
             recipes := []
             totalPages := 0
             loading := false }

/-- One complete fetch attempt: the try-block start followed by resolution of
the response. -/
def fetchAttempt (s : AppState) (r : HttpResponse) : AppState :=
  fetchResolve (fetchStart s) r

/-- Handler `handleSearchChange` (part_000 lines 140–143):
`setSearchQuery(e.target.value); setCurrentPage(1);`. -/
def handleSearchChange (s : AppState) (value : String) : AppState :=
  { s with searchQuery := value, currentPage := 1 }

/-- Change handler of the sort-field select (part_000 line 162). -/
def handleSortByChange (s : AppState) (value : String) : AppState :=
  { s with sortBy := value }

/-- Change handler of the sort-order select (part_000 line 167). -/
def handleSortOrderChange (s : AppState) (value : String) : AppState :=
  { s with sortOrder := value }

/-- Card click (part_000 line 176): `onCardClick = setSelectedRecipe`. -/
def selectCard (s : AppState) (r : Recipe) : AppState :=
  { s with selectedRecipe := some r }

/-- Closing of the detail overlay (part_000 line 189):
`onClose = () => setSelectedRecipe(null)`. -/
def closeDetail (s : AppState) : AppState :=
  { s with selectedRecipe := none }

/-- The dependency array of the fetch effect (part_000 line 137): the effect
re-runs exactly when one of these four values changes. -/
def effectDeps (s : AppState) : Nat × String × String × String :=
  (s.currentPage, s.searchQuery, s.sortBy, s.sortOrder)

/-- The early returns on lines 145–146 mean the controls are rendered only when
the component is neither loading nor showing an error. -/
def controlsRendered (s : AppState) : Bool :=
  !s.loading && s.error.isNone

/-- The pagination block is rendered only under `totalPages > 1`
(part_000 line 180). -/
def paginationRendered (s : AppState) : Bool :=
  controlsRendered s && decide (1 < s.totalPages)

/-- Events the rendered page can deliver to the `App` component. -/
inductive UserAction where
  | prevClick
  | nextClick
  | searchInput (value : String)
  | sortByInput (value : String)
  | sortOrderInput (value : String)
  | cardClick (r : Recipe)
  | detailClose
  | fetchRun (r : HttpResponse)

/-- One UI step of the server-paginated variant.  A button click has an effect
only when the button is rendered and not disabled: "Anterior" is disabled at
`currentPage === 1` and "Próxima" at `currentPage === totalPages`
(part_000 lines 182 and 184); the whole pagination block needs
`totalPages > 1`; the text and select inputs need the non-loading,
non-error render. -/
def step (a : UserAction) (s : AppState) : AppState :=
  match a with
  | .prevClick =>
      if paginationRendered s && !(s.currentPage == 1) then
        { s with currentPage := prevPage s.currentPage }
      else s
  | .nextClick =>
      if paginationRendered s && !(s.currentPage == s.totalPages) then
        { s with currentPage := nextPage s.currentPage s.totalPages }
      else s
  | .searchInput v => if controlsRendered s then handleSearchChange s v else s
  | .sortByInput v => if controlsRendered s then handleSortByChange s v else s
  | .sortOrderInput v => if controlsRendered s then handleSortOrderChange s v else s
  | .cardClick r => selectCard s r
  | .detailClose => closeDetail s
  | .fetchRun r => fetchAttempt s r

/-- States the server-paginated UI can reach from mount by any sequence of
events, fetch completions included. -/
inductive Reachable : AppState → Prop where
  | init : Reachable initialState
  | step (a : UserAction) {s : AppState} : Reachable s → Reachable (step a s)

/-- Places a click inside the rendered `RecipeDetail` overlay can land
(part_000 lines 52–56). -/
inductive DetailClickTarget where
  | overlayBackground
  | overlayContent
  | closeButton

/-- Effect of a click in the open overlay on the selection, following the DOM
event flow of `RecipeDetail`: the outer `modal-overlay` div has
`onClick={onClose}`; the inner `modal-content` div stops propagation, so a
click on it reaches no close handler; the close button runs `onClose` (and the
event then bubbles to the overlay, closing again, which is the same result).
Here `onClose` is `() => setSelectedRecipe(null)` (part_000 line 189). -/
def detailClick (target : DetailClickTarget) (sel : Option Recipe) : Option Recipe :=
  match target with
  | .overlayBackground => none
  | .overlayContent => sel
  | .closeButton => none

/-- Text contents of the `<li>` items rendered for the ingredients
(part_000 lines 68–70): one item per ingredient, in map order. -/
def detailIngredientItems (r : Recipe) : List String :=
  r.ingredients.map (fun ingredient => ingredient)

/-- Text contents of the `<li>` items rendered for the instructions
(part_000 lines 76–78): one item per instruction, in map order. -/
def detailInstructionItems (r : Recipe) : List String :=
  r.instructions.map (fun instruction => instruction)

end ServerApp

namespace ClientApp

/-- The `useState` cells of the `App` component of
`src/API-AppReceitas/src/App.tsx`. -/
structure AppState where
  recipes : List Recipe
  loading : Bool
  error : Option String
  currentPage : Nat

/-- Initial values of the `useState` cells (App.tsx lines 45–48). -/
def initialState : AppState :=
  { recipes := []
    loading := true
    error := none
    currentPage := 1 }

/-- Start of the `fetchRecipes` try-block (App.tsx line 55):
`setLoading(true);`.  This variant does not clear `error` here. -/
def fetchStart (s : AppState) : AppState :=
  { s with loading := true }

/-- Resolution of the single mount fetch (App.tsx lines 58–72).  An ok
response stores `data.recipes`; a non-ok one records the thrown
`HTTP error! status: ${response.status}` but leaves `recipes` untouched.
The finally-block runs `setLoading(false)` on both paths. -/
def fetchResolve (s : AppState) (r : HttpResponse) : AppState :=
  if responseOk r then
    { s with recipes := r.recipes, loading := false }
  else
    { s with error := some ("HTTP error! status: " ++ toString r.status)
             loading := false }

/-- One complete mount fetch attempt. -/
def fetchAttempt (s : AppState) (r : HttpResponse) : AppState :=
  fetchResolve (fetchStart s) r

/-- Derived value `indexOfLastRecipe = currentPage * RECIPES_PER_PAGE`
(App.tsx line 79). -/
def indexOfLastRecipe (currentPage : Nat) : Nat :=
  currentPage * RECIPES_PER_PAGE

/-- Derived value `indexOfFirstRecipe = indexOfLastRecipe - RECIPES_PER_PAGE`
(App.tsx line 80). -/
def indexOfFirstRecipe (currentPage : Nat) : Nat :=
  indexOfLastRecipe currentPage - RECIPES_PER_PAGE

/-- Models `Array.prototype.slice(first, last)` for nonnegative indices: the
elements with indices in `[first, last)`, clamped to the array length. -/
def arraySlice (l : List Recipe) (first last : Nat) : List Recipe :=
  (l.drop first).take (last - first)

/-- Derived value `currentRecipes = recipes.slice(indexOfFirstRecipe,
indexOfLastRecipe)` (App.tsx line 81). -/
def currentRecipes (recipes : List Recipe) (currentPage : Nat) : List Recipe :=
  arraySlice recipes (indexOfFirstRecipe currentPage) (indexOfLastRecipe currentPage)

/-- Derived value `totalPages = Math.ceil(recipes.length / RECIPES_PER_PAGE)`
(App.tsx line 82). -/
def totalPages (recipes : List Recipe) : Nat :=
  mathCeilDiv recipes.length RECIPES_PER_PAGE

/-- The early returns on lines 84–85 mean the page body is rendered only when
the component is neither loading nor showing an error. -/
def controlsRendered (s : AppState) : Bool :=
  !s.loading && s.error.isNone

/-- Events the client-paginated page can deliver to its `App` component.  This
variant has no search box and no sort selects. -/
inductive UserAction where
  | prevClick
  | nextClick
  | mountFetch (r : HttpResponse)

/-- One UI step of the client-paginated variant.  The pagination block is
always rendered (App.tsx lines 95–99, no `totalPages > 1` condition);
"Anterior" is disabled at `currentPage === 1` and "Próxima" at
`currentPage === totalPages`. -/
def step (a : UserAction) (s : AppState) : AppState :=
  match a with
  | .prevClick =>
      if controlsRendered s && !(s.currentPage == 1) then
        { s with currentPage := prevPage s.currentPage }
      else s
  | .nextClick =>
      if controlsRendered s && !(s.currentPage == totalPages s.recipes) then
        { s with currentPage := nextPage s.currentPage (totalPages s.recipes) }
      else s
  | .mountFetch r => fetchAttempt s r

/-- States the client-paginated UI can reach from mount. -/
inductive Reachable : AppState → Prop where
  | init : Reachable initialState
  | step (a : UserAction) {s : AppState} : Reachable s → Reachable (step a s)

/-- A successful response whose result set is empty, exactly what the mount
fetch delivers when the provider has no records. -/
def emptyOkResponse : HttpResponse :=
  { status := 200, recipes := [], total := 0 }

/-- The state after the mount fetch resolves with an empty result set. -/
def emptyFetchedState : AppState :=
  step (.mountFetch emptyOkResponse) initialState

end ClientApp

/-- A concrete recipe value used to instantiate theorems on sample data. -/
def sampleRecipe : Recipe :=
  { id := 1
    name := "Recipe"
    image := "https://example.org/r.png"
    mealType := ["Dinner"]
    prepTimeMinutes := 10
    cookTimeMinutes := 20
    servings := 4
    caloriesPerServing := 300
    rating := 4.5
    difficulty := "Easy"
    ingredients := ["salt"]
    instructions := ["mix"] }

/-- A full result set of 13 records, the scenario size of the spec. -/
def sampleRecipes13 : List Recipe :=
  List.replicate 13 sampleRecipe

/-- A concrete HTTP 500 response. -/
def resp500 : HttpResponse :=
  { status := 500, recipes := [], total := 0 }

/-- Containment of `pat` in `s` as strings: `s` splits as `u ++ pat ++ v`. -/
def strContains (pat s : String) : Prop :=
  ∃ u v : String, s = u ++ pat ++ v

/-- Fixed head of the search endpoint URL of the server-paginated variant. -/
def searchUrlHead : String :=
  "https://dummyjson.com/recipes/search?q="

/-- Proposition that `url` targets the search-specific path, with its `q`
parameter coming first. -/
def targetsSearchPath (url : String) : Prop :=
  ∃ rest : String, url = searchUrlHead ++ rest

/-- C1: the claim says every fetch attempt starts by setting the loading flag
to true and clearing the error.  The server-paginated variant's code instead
runs `setLoading(false)` at the start of its try-block (part_000 line 103); it
does clear the error.  This theorem records the actual code behaviour: after
`fetchStart` the loading flag is `false`, not `true`. -/
theorem claimC1_fetchStart_code_behaviour : ∀ s : ServerApp.AppState,
    (ServerApp.fetchStart s).loading = false ∧ (ServerApp.fetchStart s).error = none :=
  fun _ => ⟨rfl, rfl⟩

/-- C3: a fetch attempt whose response has a non-2xx status ends in failure.
In the server-paginated variant the thrown message
`HTTP error! status: <code>` is recorded in the error field (the numeric
status code is a suffix of the message), the recipe list becomes empty and the
total page count becomes zero, whatever the previous state was.  In the
client-paginated variant the catch-block does not clear `recipes`, but its
only fetch runs at mount where `recipes` is still empty, so the result state
is empty there too and the derived total page count is zero. -/
theorem claimC3_http_failure_replaces_state :
    ∀ (s : ServerApp.AppState) (r : HttpResponse), responseOk r = false →
    (ServerApp.fetchAttempt s r).error = some ("HTTP error! status: " ++ toString r.status) ∧
    (∃ msgHead : String,
      (ServerApp.fetchAttempt s r).error = some (msgHead ++ toString r.status)) ∧
    (ServerApp.fetchAttempt s r).recipes = [] ∧
    (ServerApp.fetchAttempt s r).totalPages = 0 ∧
    (ClientApp.fetchAttempt ClientApp.initialState r).error
        = some ("HTTP error! status: " ++ toString r.status) ∧
    (ClientApp.fetchAttempt ClientApp.initialState r).recipes = [] ∧
    ClientApp.totalPages (ClientApp.fetchAttempt ClientApp.initialState r).recipes = 0 := by
  intro s r h
  simp [ServerApp.fetchAttempt, ServerApp.fetchResolve, ServerApp.fetchStart,
    ClientApp.fetchAttempt, ClientApp.fetchResolve, ClientApp.fetchStart,
    ClientApp.initialState, ClientApp.totalPages, h]
  exact ⟨⟨"HTTP error! status: ", rfl⟩, rfl⟩

/-- Witness for C3 at an HTTP 500 response. -/
theorem claimC3_witness :
    (ServerApp.fetchAttempt ServerApp.initialState resp500).error
        = some ("HTTP error! status: " ++ toString (500 : Nat)) ∧
    (∃ msgHead : String,
      (ServerApp.fetchAttempt ServerApp.initialState resp500).error
          = some (msgHead ++ toString (500 : Nat))) ∧
    (ServerApp.fetchAttempt ServerApp.initialState resp500).recipes = [] ∧
    (ServerApp.fetchAttempt ServerApp.initialState resp500).totalPages = 0 ∧
    (ClientApp.fetchAttempt ClientApp.initialState resp500).error
        = some ("HTTP error! status: " ++ toString (500 : Nat)) ∧
    (ClientApp.fetchAttempt ClientApp.initialState resp500).recipes = [] ∧
    ClientApp.totalPages (ClientApp.fetchAttempt ClientApp.initialState resp500).recipes = 0 :=
  claimC3_http_failure_replaces_state ServerApp.initialState resp500 (by decide)

/-- C5: the search-change handler always resets the current page to 1, for
every previous state and every new value of the search text, the empty string
included; the search text itself is stored as given. -/
theorem claimC5_search_resets_page : ∀ (s : ServerApp.AppState) (value : String),
    (ServerApp.handleSearchChange s value).currentPage = 1 ∧
    (ServerApp.handleSearchChange s value).searchQuery = value :=
  fun _ _ => ⟨rfl, rfl⟩

/-- C6: clamp law of the pagination handlers shared by both variants:
"previous" at page 1 stays at 1, "next" at the last page stays there, and in
general the handlers compute `max (p - 1) 1` and `min (p + 1) t`. -/
theorem claimC6_clamp_law : ∀ p t : Nat,
    prevPage 1 = 1 ∧ nextPage t t = t ∧
    prevPage p = max (p - 1) 1 ∧ nextPage p t = min (p + 1) t := by
  intro p t
  refine ⟨by decide, ?_, rfl, rfl⟩
  simp only [nextPage]
  omega

/-- C8: clicking a card stores that recipe as the selection (opening the
overlay); the overlay renders the full ingredient and instruction lists in
their original order; the close button and a click on the overlay background
clear the selection, while a click inside the content region leaves it
unchanged; the explicit close action at `App` level also clears it. -/
theorem claimC8_detail_overlay : ∀ (s : ServerApp.AppState) (r : Recipe),
    (ServerApp.selectCard s r).selectedRecipe = some r ∧
    ServerApp.detailIngredientItems r = r.ingredients ∧
    ServerApp.detailInstructionItems r = r.instructions ∧
    (∀ sel : Option Recipe, ServerApp.detailClick .overlayBackground sel = none) ∧
    (∀ sel : Option Recipe, ServerApp.detailClick .closeButton sel = none) ∧
    (∀ sel : Option Recipe, ServerApp.detailClick .overlayContent sel = sel) ∧
    (ServerApp.closeDetail s).selectedRecipe = none := by
  intro s r
  refine ⟨rfl, ?_, ?_, fun _ => rfl, fun _ => rfl, fun _ => rfl, rfl⟩ <;>
    simp [ServerApp.detailIngredientItems, ServerApp.detailInstructionItems]

/-- C9: client-side slicing is a deterministic pure function of the full
result set and the page number: equal inputs give identical output. -/
theorem claimC9_slice_deterministic :
    ∀ (r₁ r₂ : List Recipe) (p₁ p₂ : Nat), r₁ = r₂ → p₁ = p₂ →
    ClientApp.currentRecipes r₁ p₁ = ClientApp.currentRecipes r₂ p₂ := by
  intro r₁ r₂ p₁ p₂ h1 h2
  rw [h1, h2]

/-- Witness for C9 on the 13-record sample set at page 2. -/
theorem claimC9_witness :
    ClientApp.currentRecipes sampleRecipes13 2 = ClientApp.currentRecipes sampleRecipes13 2 :=
  claimC9_slice_deterministic sampleRecipes13 sampleRecipes13 2 2 rfl rfl

/-- C10: selecting a card and closing the overlay change only the selection
slot: recipes, total pages, current page, search text, sort field, sort order,
loading flag and error are untouched, and the fetch effect's dependency tuple
is unchanged, so no re-fetch is triggered. -/
theorem claimC10_selection_frame : ∀ (s : ServerApp.AppState) (r : Recipe),
    ((ServerApp.selectCard s r).recipes = s.recipes ∧
     (ServerApp.selectCard s r).totalPages = s.totalPages ∧
     (ServerApp.selectCard s r).currentPage = s.currentPage ∧
     (ServerApp.selectCard s r).searchQuery = s.searchQuery ∧
     (ServerApp.selectCard s r).sortBy = s.sortBy ∧
     (ServerApp.selectCard s r).sortOrder = s.sortOrder ∧
     (ServerApp.selectCard s r).loading = s.loading ∧
     (ServerApp.selectCard s r).error = s.error ∧
     ServerApp.effectDeps (ServerApp.selectCard s r) = ServerApp.effectDeps s) ∧
    ((ServerApp.closeDetail s).recipes = s.recipes ∧
     (ServerApp.closeDetail s).totalPages = s.totalPages ∧
     (ServerApp.closeDetail s).currentPage = s.currentPage ∧
     (ServerApp.closeDetail s).searchQuery = s.searchQuery ∧
     (ServerApp.closeDetail s).sortBy = s.sortBy ∧
     (ServerApp.closeDetail s).sortOrder = s.sortOrder ∧
     (ServerApp.closeDetail s).loading = s.loading ∧
     (ServerApp.closeDetail s).error = s.error ∧
     ServerApp.effectDeps (ServerApp.closeDetail s) = ServerApp.effectDeps s) :=
  fun _ _ =>
    ⟨⟨rfl, rfl, rfl, rfl, rfl, rfl, rfl, rfl, rfl⟩,
     ⟨rfl, rfl, rfl, rfl, rfl, rfl, rfl, rfl, rfl⟩⟩

/-- C2 counterexample: in the client-paginated variant the claim fails.  After
the mount fetch succeeds with an empty result set (`totalPages = 0`), the
pagination block is rendered and "Próxima" is enabled (its disabled condition
`currentPage === totalPages` is `1 === 0`, false), so one click sets
`currentPage = Math.min(1 + 1, 0) = 0`, below 1. -/
theorem claimC2_counterexample :
    ClientApp.Reachable ClientApp.emptyFetchedState ∧
    ClientApp.totalPages ClientApp.emptyFetchedState.recipes = 0 ∧
    (ClientApp.step .nextClick ClientApp.emptyFetchedState).currentPage < 1 := by
  refine ⟨ClientApp.Reachable.step _ ClientApp.Reachable.init, rfl, ?_⟩
  decide

/-- C2 as amended: in the server-paginated variant, whose pagination block is
rendered only when `totalPages > 1`, the current page stays at least 1 in every
state reachable from mount by any sequence of user actions and fetch
completions. -/
theorem claimC2_amended_page_ge_one :
    ∀ s : ServerApp.AppState, ServerApp.Reachable s → 1 ≤ s.currentPage := by
  intro s h
  induction h with
  | init => exact Nat.le_refl 1
  | step a h ih =>
    cases a with
    | prevClick =>
      simp only [ServerApp.step]
      split
      · simp only [prevPage]
        omega
      · exact ih
    | nextClick =>
      simp only [ServerApp.step]
      split
      · next hcond =>
          simp only [ServerApp.paginationRendered, Bool.and_eq_true, decide_eq_true_eq] at hcond
          simp only [nextPage]
          omega
      · exact ih
    | searchInput v =>
      simp only [ServerApp.step]
      split
      · exact Nat.le_refl 1
      · exact ih
    | sortByInput v =>
      simp only [ServerApp.step]
      split
      · exact ih
      · exact ih
    | sortOrderInput v =>
      simp only [ServerApp.step]
      split
      · exact ih
      · exact ih
    | cardClick r => exact ih
    | detailClose => exact ih
    | fetchRun r =>
      simp only [ServerApp.step, ServerApp.fetchAttempt, ServerApp.fetchResolve,
        ServerApp.fetchStart]
      split
      · exact ih
      · exact ih

/-- Witness for the amended C2 at a concrete reachable state: the result of a
"previous" click on the initial state. -/
theorem claimC2_amended_witness :
    1 ≤ (ServerApp.step .prevClick ServerApp.initialState).currentPage :=
  claimC2_amended_page_ge_one _ (ServerApp.Reachable.step _ ServerApp.Reachable.init)

/-- C4: under the client-paginated variant, for every page `p ≥ 1` the
displayed slice is exactly the window from index `(p−1)·pageSize` up to but
excluding `(p−1)·pageSize + pageSize`, and the total page count is the ceiling
of the full length over the page size (stated both as Mathlib's
ceiling-division and by the least-upper-bound characterisation); with a full
result set of 13 records, `totalPages = 3` and page 3 holds exactly 1 record. -/
theorem claimC4_client_slicing : ∀ (recipes : List Recipe) (p : Nat), 1 ≤ p →
    ClientApp.currentRecipes recipes p
        = ClientApp.arraySlice recipes ((p - 1) * RECIPES_PER_PAGE)
            ((p - 1) * RECIPES_PER_PAGE + RECIPES_PER_PAGE) ∧
    ClientApp.totalPages recipes = recipes.length ⌈/⌉ RECIPES_PER_PAGE ∧
    recipes.length ≤ RECIPES_PER_PAGE * ClientApp.totalPages recipes ∧
    (∀ t : Nat, recipes.length ≤ RECIPES_PER_PAGE * t → ClientApp.totalPages recipes ≤ t) ∧
    (recipes.length = 13 →
      ClientApp.totalPages recipes = 3 ∧ (ClientApp.currentRecipes recipes 3).length = 1) := by
  intro recipes p hp
  refine ⟨?_, ?_, ?_, ?_, ?_⟩
  · have h1 : ClientApp.indexOfFirstRecipe p = (p - 1) * RECIPES_PER_PAGE := by
      simp only [ClientApp.indexOfFirstRecipe, ClientApp.indexOfLastRecipe, RECIPES_PER_PAGE]
      omega
    have h2 : ClientApp.indexOfLastRecipe p
        = (p - 1) * RECIPES_PER_PAGE + RECIPES_PER_PAGE := by
      simp only [ClientApp.indexOfLastRecipe, RECIPES_PER_PAGE]
      omega
    simp only [ClientApp.currentRecipes, h1, h2]
  · rfl
  · simp only [ClientApp.totalPages, mathCeilDiv, RECIPES_PER_PAGE]
    omega
  · intro t ht
    simp only [ClientApp.totalPages, mathCeilDiv, RECIPES_PER_PAGE] at *
    omega
  · intro hlen
    constructor
    · simp only [ClientApp.totalPages, mathCeilDiv, RECIPES_PER_PAGE, hlen]
    · simp only [ClientApp.currentRecipes, ClientApp.arraySlice, ClientApp.indexOfFirstRecipe,
        ClientApp.indexOfLastRecipe, RECIPES_PER_PAGE, List.length_take, List.length_drop, hlen]
      omega

/-- Witness for C4 on the 13-record sample set at page 3. -/
theorem claimC4_witness :
    ClientApp.totalPages sampleRecipes13 = 3 ∧
    (ClientApp.currentRecipes sampleRecipes13 3).length = 1 :=
  (claimC4_client_slicing sampleRecipes13 3 (by decide)).2.2.2.2 (by simp [sampleRecipes13])

/-- Introduction helper for `strContains`. -/
theorem strContains_intro (pat s u v : String) (h : s = u ++ pat ++ v) :
    strContains pat s :=
  ⟨u, v, h⟩

/-- Shape of the URL built with a non-empty search text. -/
theorem buildUrl_of_search (q : String) (hq : q ≠ "") (p : Nat) (sb so : String) :
    ServerApp.buildUrl q p sb so
      = "https://dummyjson.com/recipes/search?q=" ++ q ++ "&limit=" ++
          toString RECIPES_PER_PAGE ++ "&skip=" ++ toString ((p - 1) * RECIPES_PER_PAGE) ++
          "&sortBy=" ++ sb ++ "&order=" ++ so := by
  simp only [ServerApp.buildUrl]
  rw [if_pos hq]

/-- Shape of the URL built with an empty search text. -/
theorem buildUrl_of_empty (p : Nat) (sb so : String) :
    ServerApp.buildUrl "" p sb so
      = "https://dummyjson.com/recipes?limit=" ++ toString RECIPES_PER_PAGE ++ "&skip=" ++
          toString ((p - 1) * RECIPES_PER_PAGE) ++ "&sortBy=" ++ sb ++ "&order=" ++ so := by
  simp only [ServerApp.buildUrl]
  rw [if_neg (by simp)]

/-- The listing URL does not start with the search head: their first 39
characters differ. -/
theorem listing_not_search (p : Nat) (sb so : String) :
    ¬ targetsSearchPath (ServerApp.buildUrl "" p sb so) := by
  rintro ⟨rest, hres⟩
  rw [buildUrl_of_empty] at hres
  have hsplit : ("https://dummyjson.com/recipes?limit=6&skip=" : String)
      = "https://dummyjson.com/recipes?limit=" ++ "6" ++ "&skip=" := rfl
  have hT6 : toString RECIPES_PER_PAGE = "6" := rfl
  rw [hT6, ← hsplit] at hres
  have hd := congrArg String.data hres
  simp only [String.data_append, List.append_assoc] at hd
  have h1 : 39 ≤ ("https://dummyjson.com/recipes?limit=6&skip=" : String).data.length := by
    decide
  have h2 : 39 ≤ searchUrlHead.data.length := by decide
  have h3 := congrArg (List.take 39) hd
  rw [List.take_append_of_le_length h1, List.take_append_of_le_length h2] at h3
  exact absurd h3 (by decide)

/-- C7: the fetch URL targets the search path (with the `q` parameter) exactly
when the search text is non-empty and the plain listing path otherwise, and in
both cases it carries the page-size limit, the offset
`skip = (page − 1) × pageSize`, the sort field and the sort order. -/
theorem claimC7_url_shape : ∀ (q : String) (p : Nat) (sb so : String),
    (targetsSearchPath (ServerApp.buildUrl q p sb so) ↔ q ≠ "") ∧
    strContains ("limit=" ++ toString RECIPES_PER_PAGE) (ServerApp.buildUrl q p sb so) ∧
    strContains ("skip=" ++ toString ((p - 1) * RECIPES_PER_PAGE))
      (ServerApp.buildUrl q p sb so) ∧
    strContains ("sortBy=" ++ sb) (ServerApp.buildUrl q p sb so) ∧
    strContains ("order=" ++ so) (ServerApp.buildUrl q p sb so) := by
  intro q p sb so
  by_cases hq : q = ""
  · subst hq
    refine ⟨⟨fun h => absurd h (listing_not_search p sb so), fun h => absurd rfl h⟩,
      ?_, ?_, ?_, ?_⟩ <;> rw [buildUrl_of_empty]
    · refine strContains_intro _ _ ("https://dummyjson.com/recipes?")
        ("&skip=" ++ toString ((p - 1) * RECIPES_PER_PAGE) ++ "&sortBy=" ++ sb ++
          "&order=" ++ so) ?_
      have hs : ("https://dummyjson.com/recipes?limit=" : String)
          = "https://dummyjson.com/recipes?" ++ "limit=" := rfl
      rw [hs]
      simp only [String.append_assoc]
    · refine strContains_intro _ _
        ("https://dummyjson.com/recipes?limit=" ++ toString RECIPES_PER_PAGE ++ "&")
        ("&sortBy=" ++ sb ++ "&order=" ++ so) ?_
      have hs : ("&skip=" : String) = "&" ++ "skip=" := rfl
      rw [hs]
      simp only [String.append_assoc]
    · refine strContains_intro _ _
        ("https://dummyjson.com/recipes?limit=" ++ toString RECIPES_PER_PAGE ++ "&skip=" ++
          toString ((p - 1) * RECIPES_PER_PAGE) ++ "&")
        ("&order=" ++ so) ?_
      have hs : ("&sortBy=" : String) = "&" ++ "sortBy=" := rfl
      rw [hs]
      simp only [String.append_assoc]
    · refine strContains_intro _ _
        ("https://dummyjson.com/recipes?limit=" ++ toString RECIPES_PER_PAGE ++ "&skip=" ++
          toString ((p - 1) * RECIPES_PER_PAGE) ++ "&sortBy=" ++ sb ++ "&") "" ?_
      have hs : ("&order=" : String) = "&" ++ "order=" := rfl
      rw [hs]
      simp only [String.append_assoc, String.append_empty]
  · refine ⟨⟨fun _ => hq, fun _ => ?_⟩, ?_, ?_, ?_, ?_⟩ <;> rw [buildUrl_of_search q hq]
    · exact ⟨q ++ "&limit=" ++ toString RECIPES_PER_PAGE ++ "&skip=" ++
        toString ((p - 1) * RECIPES_PER_PAGE) ++ "&sortBy=" ++ sb ++ "&order=" ++ so,
        by simp only [searchUrlHead, String.append_assoc]⟩
    · refine strContains_intro _ _ ("https://dummyjson.com/recipes/search?q=" ++ q ++ "&")
        ("&skip=" ++ toString ((p - 1) * RECIPES_PER_PAGE) ++ "&sortBy=" ++ sb ++
          "&order=" ++ so) ?_
      have hs : ("&limit=" : String) = "&" ++ "limit=" := rfl
      rw [hs]
      simp only [String.append_assoc]
    · refine strContains_intro _ _
        ("https://dummyjson.com/recipes/search?q=" ++ q ++ "&limit=" ++
          toString RECIPES_PER_PAGE ++ "&")
        ("&sortBy=" ++ sb ++ "&order=" ++ so) ?_
      have hs : ("&skip=" : String) = "&" ++ "skip=" := rfl
      rw [hs]
      simp only [String.append_assoc]
    · refine strContains_intro _ _
        ("https://dummyjson.com/recipes/search?q=" ++ q ++ "&limit=" ++
          toString RECIPES_PER_PAGE ++ "&skip=" ++ toString ((p - 1) * RECIPES_PER_PAGE) ++ "&")
        ("&order=" ++ so) ?_
      have hs : ("&sortBy=" : String) = "&" ++ "sortBy=" := rfl
      rw [hs]
      simp only [String.append_assoc]
    · refine strContains_intro _ _
        ("https://dummyjson.com/recipes/search?q=" ++ q ++ "&limit=" ++
          toString RECIPES_PER_PAGE ++ "&skip=" ++ toString ((p - 1) * RECIPES_PER_PAGE) ++
          "&sortBy=" ++ sb ++ "&") "" ?_
      have hs : ("&order=" : String) = "&" ++ "order=" := rfl
      rw [hs]
      simp only [String.append_assoc, String.append_empty]

end AppReceitas
